import Mathlib

/-!
Verification development for the RunTracker firmware core: a shallow
embedding of the workout lifecycle state machine (workout/workout_state.c),
the control coordinator (rtos/control_task.c), the offline event ring
buffer (storage/buffer.c) and the protocol codec (comms/protocol.c),
together with theorems settling the specification claims.

Machine integers: every `uint32_t` value is modelled as a `Nat` together
with explicit modular arithmetic at `2^32`; `uint8_t` counters are `Nat`s
whose bounds are established by invariants.  Each C function that samples
`Time_GetMs()` is modelled with an explicit `now : Nat` argument (all
samples within one call are identified).  Fallible operations return a
`Bool`/`Option` paired with the successor state; the mutable module
statics are threaded as explicit state records.
-/

namespace RunTracker

/-- Modulus of the C `uint32_t` arithmetic, `2^32`. -/
def U32MOD : Nat := 4294967296

/-- Wraparound-safe `uint32_t` subtraction `a - b`, as computed by the C
unsigned arithmetic (well-defined for arguments given modulo `2^32`). -/
def sub32 (a b : Nat) : Nat := (a + (U32MOD - b % U32MOD)) % U32MOD

/-- Workout mode enumeration from workout_types.h. -/
inductive WorkoutMode where
  | MODE_4x500M
  | MODE_5x1000M
  | MODE_2x2000M
  | MODE_1x4000M
deriving DecidableEq

/-- Lifecycle state enumeration from workout_types.h. -/
inductive WorkoutState where
  | STATE_IDLE
  | STATE_RUNNING
  | STATE_REST
  | STATE_PAUSED
  | STATE_COMPLETED
deriving DecidableEq

/-- Workout configuration derived from the mode (workout_types.h). -/
structure WorkoutConfig where
  mode : WorkoutMode
  total_laps : Nat
  lap_distance_m : Nat
  rest_time_sec : Nat
deriving DecidableEq

/-- Single lap record (workout_types.h). -/
structure LapRecord where
  lap_number : Nat
  lap_time_ms : Nat
  split_time_ms : Nat
deriving DecidableEq

/-- Maximum laps for any workout mode (workout_types.h). -/
def MAX_LAPS : Nat := 8

/-- Complete workout session (workout_types.h).  The fixed C array
`laps[MAX_LAPS]` is modelled as a total function from the index; the
invariants establish that all writes stay below `MAX_LAPS`. -/
structure WorkoutSession where
  config : WorkoutConfig
  state : WorkoutState
  current_lap : Nat
  workout_start_ms : Nat
  lap_start_ms : Nat
  laps : Nat → LapRecord

/-- Full mutable state of the workout_state.c module: the session plus the
two pause-accounting statics `s_pauseStartMs` and `s_totalPausedMs`. -/
structure WorkoutSt where
  session : WorkoutSession
  pauseStartMs : Nat
  totalPausedMs : Nat

/-- All-zero lap record (the `memset` initial state). -/
def zeroLap : LapRecord := ⟨0, 0, 0⟩

/-- Helper `setModeConfig` from workout_state.c: derives the config
constants from the mode tag. -/
def setModeConfig (mode : WorkoutMode) (st : WorkoutSt) : WorkoutSt :=
  let cfg : WorkoutConfig :=
    match mode with
    | .MODE_4x500M  => ⟨mode, 4, 500, 60⟩
    | .MODE_5x1000M => ⟨mode, 5, 1000, 90⟩
    | .MODE_2x2000M => ⟨mode, 2, 2000, 120⟩
    | .MODE_1x4000M => ⟨mode, 1, 4000, 0⟩
  { st with session := { st.session with config := cfg } }

/-- Boot-time state produced by `Workout_Init`: zeroed session, IDLE,
default mode `4x500m`, pause accumulators cleared. -/
def Workout_Init : WorkoutSt :=
  setModeConfig .MODE_4x500M
    { session :=
        { config := ⟨.MODE_4x500M, 0, 0, 0⟩
          state := .STATE_IDLE
          current_lap := 0
          workout_start_ms := 0
          lap_start_ms := 0
          laps := fun _ => zeroLap }
      pauseStartMs := 0
      totalPausedMs := 0 }

/-- Current lifecycle state accessor `Workout_GetState`. -/
def Workout_GetState (st : WorkoutSt) : WorkoutState := st.session.state

/-- Operation `Workout_SetMode`: succeeds only in IDLE, otherwise fails
with no state change. -/
def Workout_SetMode (mode : WorkoutMode) (st : WorkoutSt) : Bool × WorkoutSt :=
  if st.session.state ≠ .STATE_IDLE then (false, st)
  else (true, setModeConfig mode st)

/-- Numeric value of the C `WorkoutMode_t` enum tag. -/
def modeIndex : WorkoutMode → Nat
  | .MODE_4x500M  => 0
  | .MODE_5x1000M => 1
  | .MODE_2x2000M => 2
  | .MODE_1x4000M => 3

/-- Enum tag for a numeric value below 4 (used by the `(mode + 1) % 4`
cycling arithmetic). -/
def modeOfIndex : Nat → WorkoutMode
  | 0 => .MODE_4x500M
  | 1 => .MODE_5x1000M
  | 2 => .MODE_2x2000M
  | _ => .MODE_1x4000M

/-- Operation `Workout_CycleMode`: in IDLE, advances to the next mode via
`(mode + 1) % 4`; otherwise fails with no state change. -/
def Workout_CycleMode (st : WorkoutSt) : Bool × WorkoutSt :=
  if st.session.state ≠ .STATE_IDLE then (false, st)
  else
    let newMode := modeOfIndex ((modeIndex st.session.config.mode + 1) % 4)
    (true, setModeConfig newMode st)

/-- Operation `Workout_Start` at clock sample `now`: starts from IDLE,
resumes from PAUSED (crediting the elapsed pause interval to the
cumulative paused-time accumulator), fails from all other states. -/
def Workout_Start (now : Nat) (st : WorkoutSt) : Bool × WorkoutSt :=
  match st.session.state with
  | .STATE_IDLE =>
      (true,
        { st with
          session :=
            { st.session with
              state := .STATE_RUNNING
              current_lap := 1
              workout_start_ms := now % U32MOD
              lap_start_ms := now % U32MOD }
          totalPausedMs := 0 })
  | .STATE_PAUSED =>
      (true,
        { st with
          session := { st.session with state := .STATE_RUNNING }
          totalPausedMs := (st.totalPausedMs + sub32 now st.pauseStartMs) % U32MOD })
  | _ => (false, st)

/-- Operation `Workout_RecordLap` at clock sample `now`: valid only while
RUNNING; writes the lap record at index `current_lap - 1`, completes the
workout on the final lap and otherwise starts the next lap.  The returned
`Option LapRecord` models the `lap_out` output parameter together with the
boolean result. -/
def Workout_RecordLap (now : Nat) (st : WorkoutSt) : Option LapRecord × WorkoutSt :=
  if st.session.state ≠ .STATE_RUNNING then (none, st)
  else
    let lapIndex := st.session.current_lap - 1
    let lap : LapRecord :=
      { lap_number := st.session.current_lap
        lap_time_ms := sub32 now st.session.lap_start_ms
        split_time_ms := sub32 (sub32 now st.session.workout_start_ms) st.totalPausedMs }
    let laps' := Function.update st.session.laps lapIndex lap
    if st.session.current_lap ≥ st.session.config.total_laps then
      (some lap,
        { st with session := { st.session with state := .STATE_COMPLETED, laps := laps' } })
    else
      (some lap,
        { st with
          session :=
            { st.session with
              current_lap := st.session.current_lap + 1
              lap_start_ms := now % U32MOD
              laps := laps' } })

/-- Operation `Workout_Pause` at clock sample `now`: valid only while
RUNNING; records the pause-start time. -/
def Workout_Pause (now : Nat) (st : WorkoutSt) : Bool × WorkoutSt :=
  if st.session.state ≠ .STATE_RUNNING then (false, st)
  else
    (true,
      { st with
        session := { st.session with state := .STATE_PAUSED }
        pauseStartMs := now % U32MOD })

/-- Operation `Workout_Stop`: fails in IDLE and COMPLETED, otherwise
transitions directly to COMPLETED. -/
def Workout_Stop (st : WorkoutSt) : Bool × WorkoutSt :=
  if st.session.state = .STATE_IDLE ∨ st.session.state = .STATE_COMPLETED then (false, st)
  else (true, { st with session := { st.session with state := .STATE_COMPLETED } })

/-- Operation `Workout_Reset`: zeroes the session preserving the
configured mode, clears the pause accumulators. -/
def Workout_Reset (st : WorkoutSt) : WorkoutSt :=
  setModeConfig st.session.config.mode
    { session :=
        { config := ⟨.MODE_4x500M, 0, 0, 0⟩
          state := .STATE_IDLE
          current_lap := 0
          workout_start_ms := 0
          lap_start_ms := 0
          laps := fun _ => zeroLap }
      pauseStartMs := 0
      totalPausedMs := 0 }

/-- Query `Workout_GetElapsedMs` at clock sample `now`: `0` in IDLE,
otherwise `now - workout_start - totalPaused` in `uint32_t` arithmetic,
further reduced by the in-progress pause interval while PAUSED. -/
def Workout_GetElapsedMs (now : Nat) (st : WorkoutSt) : Nat :=
  if st.session.state = .STATE_IDLE then 0
  else
    let elapsed := sub32 (sub32 now st.session.workout_start_ms) st.totalPausedMs
    if st.session.state = .STATE_PAUSED then sub32 elapsed (sub32 now st.pauseStartMs)
    else elapsed

/-- Query `Workout_GetCurrentLapMs` at clock sample `now`. -/
def Workout_GetCurrentLapMs (now : Nat) (st : WorkoutSt) : Nat :=
  if st.session.state ≠ .STATE_RUNNING then 0
  else sub32 now st.session.lap_start_ms

/-- State names as rendered by `Workout_StateToString`. -/
def Workout_StateToString : WorkoutState → String
  | .STATE_IDLE => "IDLE"
  | .STATE_RUNNING => "RUNNING"
  | .STATE_REST => "REST"
  | .STATE_PAUSED => "PAUSED"
  | .STATE_COMPLETED => "COMPLETED"

/-- Mode names as rendered by `Workout_ModeToString`. -/
def Workout_ModeToString : WorkoutMode → String
  | .MODE_4x500M => "4x500m"
  | .MODE_5x1000M => "5x1000m"
  | .MODE_2x2000M => "2x2000m"
  | .MODE_1x4000M => "1x4000m"

/-- Event kinds for BLE communication (workout_types.h). -/
inductive EventType where
  | EVENT_WORKOUT_START
  | EVENT_WORKOUT_STOP
  | EVENT_LAP_COMPLETE
  | EVENT_WORKOUT_DONE
  | EVENT_STATUS_UPDATE
deriving DecidableEq

/-- Workout event sent to the app via BLE (workout_types.h). -/
structure WorkoutEvent where
  type : EventType
  timestamp_ms : Nat
  current_lap : Nat
  lap_data : LapRecord
deriving DecidableEq

/-- Button event kinds (buttons.h). -/
inductive ButtonEventType where
  | BTN_NONE
  | BTN_START
  | BTN_LAP
  | BTN_STOP
  | BTN_MODE_NEXT
  | BTN_STATUS
deriving DecidableEq

/-- Button event delivered through the button queue (buttons.h). -/
structure ButtonEvent where
  type : ButtonEventType
  timestamp_ms : Nat
deriving DecidableEq

/-- BLE control event kinds (control_task.h). -/
inductive BleCtrlEventType where
  | BLE_CTRL_EVT_NONE
  | BLE_CTRL_EVT_HR_DONE
  | BLE_CTRL_EVT_CONNECTED
  | BLE_CTRL_EVT_DISCONNECTED
deriving DecidableEq

/-- BLE control event delivered through the control queue (control_task.h). -/
structure BleCtrlEvent where
  type : BleCtrlEventType
  timestamp_ms : Nat
deriving DecidableEq

/-- Coordinator state enumeration (control_task.h). -/
inductive CtrlState where
  | CTRL_STATE_IDLE
  | CTRL_STATE_RUNNING
  | CTRL_STATE_HR_MEASUREMENT
deriving DecidableEq

/-- Bounded wait for the heart-rate confirmation (control_task.c):
`HR_CONFIRM_TIMEOUT_MS`. -/
def HR_CONFIRM_TIMEOUT_MS : Nat := 5000

/-- Full mutable state of the control_task.c module: the workout module
state it drives, `s_currentState`, and the `s_hrWait` record. -/
structure CtrlSt where
  workout : WorkoutSt
  currentState : CtrlState
  hrWaitStartMs : Nat
  hrWaitActive : Bool

/-- State established by `ControlTask_Init`: workout initialized, the
coordinator in IDLE, the HR-wait record zeroed. -/
def ControlTask_InitSt : CtrlSt :=
  { workout := Workout_Init
    currentState := .CTRL_STATE_IDLE
    hrWaitStartMs := 0
    hrWaitActive := false }

/-- Transition `enterHrWaitState` at clock sample `now`: pauses the
lifecycle, records the wait start, marks the wait active and moves the
coordinator to HR_MEASUREMENT.  (The fire-and-forget HR request has no
effect on coordinator state.) -/
def enterHrWaitState (now : Nat) (c : CtrlSt) : CtrlSt :=
  let w := (Workout_Pause now c.workout).2
  { c with
    workout := w
    hrWaitStartMs := now % U32MOD
    hrWaitActive := true
    currentState := .CTRL_STATE_HR_MEASUREMENT }

/-- Transition `exitHrWaitState` at clock sample `now`: deactivates the
wait, attempts `Workout_RecordLap`, emits a Done/LapComplete event when a
record is produced, and then resumes (coordinator RUNNING) or finishes
(coordinator IDLE).  The returned list is the sequence of workout events
handed to `BleTx_SendEvent`; the `confirmed` flag is unused by the C body. -/
def exitHrWaitState (now : Nat) (confirmed : Bool) (c : CtrlSt) : CtrlSt × List WorkoutEvent :=
  let _ := confirmed
  let c0 := { c with hrWaitActive := false }
  let r := Workout_RecordLap now c0.workout
  let w1 := r.2
  let evts : List WorkoutEvent :=
    match r.1 with
    | some lap =>
        [{ type :=
             if Workout_GetState w1 = .STATE_COMPLETED then .EVENT_WORKOUT_DONE
             else .EVENT_LAP_COMPLETE
           timestamp_ms := now % U32MOD
           current_lap := 0
           lap_data := lap }]
    | none => []
  if Workout_GetState w1 ≠ .STATE_COMPLETED then
    ({ c0 with workout := (Workout_Start now w1).2, currentState := .CTRL_STATE_RUNNING }, evts)
  else
    ({ c0 with workout := w1, currentState := .CTRL_STATE_IDLE }, evts)

/-- Handler `handleButtonEvent` from control_task.c. -/
def handleButtonEvent (now : Nat) (evt : ButtonEvent) (c : CtrlSt) : CtrlSt × List WorkoutEvent :=
  match c.currentState with
  | .CTRL_STATE_IDLE =>
      if evt.type = .BTN_START then
        let r := Workout_Start now c.workout
        if r.1 then ({ c with workout := r.2, currentState := .CTRL_STATE_RUNNING }, [])
        else ({ c with workout := r.2 }, [])
      else (c, [])
  | .CTRL_STATE_RUNNING =>
      if evt.type = .BTN_LAP then (enterHrWaitState now c, [])
      else if evt.type = .BTN_STOP then ({ c with workout := (Workout_Pause now c.workout).2 }, [])
      else (c, [])
  | .CTRL_STATE_HR_MEASUREMENT =>
      if evt.type = .BTN_STOP then exitHrWaitState now false c
      else (c, [])

/-- Handler `handleBleCtrlEvent` from control_task.c. -/
def handleBleCtrlEvent (now : Nat) (evt : BleCtrlEvent) (c : CtrlSt) : CtrlSt × List WorkoutEvent :=
  if evt.type = .BLE_CTRL_EVT_HR_DONE ∧ c.currentState = .CTRL_STATE_HR_MEASUREMENT ∧
      c.hrWaitActive = true then
    exitHrWaitState now true c
  else (c, [])

/-- One iteration of the `ControlTask_Run` loop at clock sample `now`:
consume an optional button event, an optional BLE control event, then
perform the bounded HR-wait deadline check.  Returns the successor state
and the workout events emitted during the iteration. -/
def ControlTask_RunStep (now : Nat) (btn : Option ButtonEvent) (ble : Option BleCtrlEvent)
    (c : CtrlSt) : CtrlSt × List WorkoutEvent :=
  let r1 := match btn with
    | some b => handleButtonEvent now b c
    | none => (c, [])
  let r2 := match ble with
    | some b => handleBleCtrlEvent now b r1.1
    | none => (r1.1, [])
  let c2 := r2.1
  let r3 :=
    if c2.currentState = .CTRL_STATE_HR_MEASUREMENT ∧ c2.hrWaitActive = true ∧
        sub32 now c2.hrWaitStartMs > HR_CONFIRM_TIMEOUT_MS then
      exitHrWaitState now false c2
    else (c2, [])
  (r3.1, r1.2 ++ r2.2 ++ r3.2)

/-- Capacity of the offline event ring (buffer.h `BUFFER_MAX_EVENTS`). -/
def BUFFER_MAX_EVENTS : Nat := 16

/-- All-zero workout event (the `memset` initial slot contents). -/
def zeroEvent : WorkoutEvent := ⟨.EVENT_WORKOUT_START, 0, 0, zeroLap⟩

/-- Full mutable state of the buffer.c module: the slot array (modelled as
a total function over the index; all accesses are taken modulo the
capacity), the head and tail cursors and the element count. -/
structure EventBuffer where
  data : Nat → WorkoutEvent
  head : Nat
  tail : Nat
  count : Nat

/-- State established by `Buffer_Init`: zeroed slots and cursors. -/
def Buffer_InitSt : EventBuffer :=
  { data := fun _ => zeroEvent, head := 0, tail := 0, count := 0 }

/-- Operation `Buffer_Push`: when full, advances the tail (dropping the
oldest event) and reports `false`; stores the event at the head and
advances it.  The event is stored in either case. -/
def Buffer_Push (e : WorkoutEvent) (b : EventBuffer) : Bool × EventBuffer :=
  if b.count ≥ BUFFER_MAX_EVENTS then
    let b1 := { b with tail := (b.tail + 1) % BUFFER_MAX_EVENTS }
    (false,
      { b1 with
        data := Function.update b1.data b1.head e
        head := (b1.head + 1) % BUFFER_MAX_EVENTS })
  else
    let b1 := { b with count := b.count + 1 }
    (true,
      { b1 with
        data := Function.update b1.data b1.head e
        head := (b1.head + 1) % BUFFER_MAX_EVENTS })

/-- Operation `Buffer_Pop`: FIFO removal; `none` when empty. -/
def Buffer_Pop (b : EventBuffer) : Option WorkoutEvent × EventBuffer :=
  if b.count = 0 then (none, b)
  else
    (some (b.data b.tail),
      { b with tail := (b.tail + 1) % BUFFER_MAX_EVENTS, count := b.count - 1 })

/-- Query `Buffer_GetCount`. -/
def Buffer_GetCount (b : EventBuffer) : Nat := b.count

/-- Query `Buffer_IsEmpty`. -/
def Buffer_IsEmpty (b : EventBuffer) : Bool := b.count = 0

/-- Operation `Buffer_Clear`: resets the cursors and count (slot contents
are left in place, matching the C implementation). -/
def Buffer_Clear (b : EventBuffer) : EventBuffer :=
  { b with head := 0, tail := 0, count := 0 }

/-- Pushing a whole list of events in order. -/
def Buffer_PushList (evs : List WorkoutEvent) (b : EventBuffer) : EventBuffer :=
  evs.foldl (fun s e => (Buffer_Push e s).2) b

/-- Popping `n` events in order, stopping early if the buffer empties. -/
def Buffer_PopN : Nat → EventBuffer → List WorkoutEvent × EventBuffer
  | 0, b => ([], b)
  | n + 1, b =>
      match Buffer_Pop b with
      | (some e, b1) =>
          let r := Buffer_PopN n b1
          (e :: r.1, r.2)
      | (none, b1) => ([], b1)

/-- Event-kind names as rendered by `Protocol_EventTypeToString`. -/
def Protocol_EventTypeToString : EventType → String
  | .EVENT_WORKOUT_START => "start"
  | .EVENT_WORKOUT_STOP => "stop"
  | .EVENT_LAP_COMPLETE => "lap"
  | .EVENT_WORKOUT_DONE => "done"
  | .EVENT_STATUS_UPDATE => "status"

/-- Codec `Protocol_SerializeEvent` from protocol.c at clock sample `now`:
formats the wire record for the event into a buffer of capacity `bufLen`.
Returns `none` exactly when the C function returns length `0` (capacity
below 50, or the record does not fit).  The C function reads the global
workout session, which is the explicit `st` argument here; `now` models
the `Time_GetMs()` sample taken inside `Workout_GetElapsedMs` for status
records. -/
def Protocol_SerializeEvent (st : WorkoutSt) (now : Nat) (e : WorkoutEvent)
    (bufLen : Nat) : Option String :=
  if bufLen < 50 then none
  else
    let s : String :=
      match e.type with
      | .EVENT_WORKOUT_START =>
          "\x7b\"event\":\"start\",\"mode\":\"" ++ Workout_ModeToString st.session.config.mode ++
            "\",\"laps\":" ++ Nat.repr st.session.config.total_laps ++
            ",\"ts\":" ++ Nat.repr e.timestamp_ms ++ "\x7d"
      | .EVENT_LAP_COMPLETE =>
          "\x7b\"event\":\"lap\",\"lap\":" ++ Nat.repr e.lap_data.lap_number ++
            ",\"lap_ms\":" ++ Nat.repr e.lap_data.lap_time_ms ++
            ",\"split_ms\":" ++ Nat.repr e.lap_data.split_time_ms ++
            ",\"ts\":" ++ Nat.repr e.timestamp_ms ++ "\x7d"
      | .EVENT_WORKOUT_STOP =>
          "\x7b\"event\":\"stop\",\"laps\":" ++ Nat.repr e.current_lap ++
            ",\"total_ms\":" ++ Nat.repr (sub32 e.timestamp_ms st.session.workout_start_ms) ++
            ",\"ts\":" ++ Nat.repr e.timestamp_ms ++ "\x7d"
      | .EVENT_WORKOUT_DONE =>
          "\x7b\"event\":\"done\",\"laps\":" ++ Nat.repr st.session.config.total_laps ++
            ",\"total_ms\":" ++ Nat.repr e.lap_data.split_time_ms ++
            ",\"ts\":" ++ Nat.repr e.timestamp_ms ++ "\x7d"
      | .EVENT_STATUS_UPDATE =>
          "\x7b\"event\":\"status\",\"state\":\"" ++ Workout_StateToString st.session.state ++
            "\",\"lap\":" ++ Nat.repr e.current_lap ++
            ",\"elapsed_ms\":" ++ Nat.repr (Workout_GetElapsedMs now st) ++ "\x7d"
    if s.length ≥ bufLen then none else some s

/-- Wire record for a `Start` event, transcribed from the spec (§6):
`\x7b"event":"start","mode":"<mode-name>","laps":<total_laps>,"ts":<u32>\x7d`. -/
def specWireStart (modeName : String) (total_laps ts : Nat) : String :=
  "\x7b\"event\":\"start\",\"mode\":\"" ++ modeName ++
    "\",\"laps\":" ++ Nat.repr total_laps ++
    ",\"ts\":" ++ Nat.repr ts ++ "\x7d"

/-- Wire record for a `LapComplete` event, transcribed from the spec (§6):
`\x7b"event":"lap","lap":<lap_number>,"lap_ms":<u32>,"split_ms":<u32>,"ts":<u32>\x7d`. -/
def specWireLap (lap lap_ms split_ms ts : Nat) : String :=
  "\x7b\"event\":\"lap\",\"lap\":" ++ Nat.repr lap ++
    ",\"lap_ms\":" ++ Nat.repr lap_ms ++
    ",\"split_ms\":" ++ Nat.repr split_ms ++
    ",\"ts\":" ++ Nat.repr ts ++ "\x7d"

/-- Wire record for a `Stop` event, transcribed from the spec (§6):
`\x7b"event":"stop","laps":<current_lap>,"total_ms":<u32>,"ts":<u32>\x7d`. -/
def specWireStop (laps total_ms ts : Nat) : String :=
  "\x7b\"event\":\"stop\",\"laps\":" ++ Nat.repr laps ++
    ",\"total_ms\":" ++ Nat.repr total_ms ++
    ",\"ts\":" ++ Nat.repr ts ++ "\x7d"

/-- Wire record for a `Done` event, transcribed from the spec (§6):
`\x7b"event":"done","laps":<total_laps>,"total_ms":<split of final lap>,"ts":<u32>\x7d`. -/
def specWireDone (laps total_ms ts : Nat) : String :=
  "\x7b\"event\":\"done\",\"laps\":" ++ Nat.repr laps ++
    ",\"total_ms\":" ++ Nat.repr total_ms ++
    ",\"ts\":" ++ Nat.repr ts ++ "\x7d"

/-- Wire record for a `StatusUpdate` event, transcribed from the spec (§6):
`\x7b"event":"status","state":"<state-name>","lap":<current_lap>,"elapsed_ms":<u32>\x7d`. -/
def specWireStatus (stateName : String) (lap elapsed_ms : Nat) : String :=
  "\x7b\"event\":\"status\",\"state\":\"" ++ stateName ++
    "\",\"lap\":" ++ Nat.repr lap ++
    ",\"elapsed_ms\":" ++ Nat.repr elapsed_ms ++ "\x7d"

/-- Populated lap slot: `Workout_RecordLap` always writes a 1-based
`lap_number`, so a slot is populated exactly when its `lap_number` is
nonzero (the `memset` initial state is all-zero). -/
def populated (r : LapRecord) : Prop := r.lap_number ≠ 0

instance (r : LapRecord) : Decidable (populated r) :=
  inferInstanceAs (Decidable (r.lap_number ≠ 0))

/-- States of the workout module reachable from boot (`Workout_Init`) by
lifecycle operations invoked at arbitrary clock samples. -/
inductive Reach : WorkoutSt → Prop where
  | init : Reach Workout_Init
  | setMode (m : WorkoutMode) (st : WorkoutSt) : Reach st → Reach (Workout_SetMode m st).2
  | cycleMode (st : WorkoutSt) : Reach st → Reach (Workout_CycleMode st).2
  | start (now : Nat) (st : WorkoutSt) : Reach st → Reach (Workout_Start now st).2
  | recordLap (now : Nat) (st : WorkoutSt) : Reach st → Reach (Workout_RecordLap now st).2
  | pause (now : Nat) (st : WorkoutSt) : Reach st → Reach (Workout_Pause now st).2
  | stop (st : WorkoutSt) : Reach st → Reach (Workout_Stop st).2
  | reset (st : WorkoutSt) : Reach st → Reach (Workout_Reset st)

/-- Session invariant maintained by all lifecycle operations: lap-count
bounds while RUNNING/PAUSED, and a characterization of which lap slots are
populated in each lifecycle state.  When COMPLETED, the populated slots
form a prefix of length `n`, where `n = current_lap` if the workout
completed by recording its final lap and `n = current_lap - 1` if it was
stopped early. -/
def SessionInv (st : WorkoutSt) : Prop :=
  1 ≤ st.session.config.total_laps ∧ st.session.config.total_laps ≤ MAX_LAPS ∧
  st.session.state ≠ .STATE_REST ∧
  (st.session.state = .STATE_IDLE → ∀ i, ¬ populated (st.session.laps i)) ∧
  ((st.session.state = .STATE_RUNNING ∨ st.session.state = .STATE_PAUSED) →
    1 ≤ st.session.current_lap ∧ st.session.current_lap ≤ st.session.config.total_laps ∧
    ∀ i, populated (st.session.laps i) ↔ i < st.session.current_lap - 1) ∧
  (st.session.state = .STATE_COMPLETED →
    1 ≤ st.session.current_lap ∧ st.session.current_lap ≤ st.session.config.total_laps ∧
    ∃ n, st.session.current_lap - 1 ≤ n ∧ n ≤ st.session.current_lap ∧
      n ≤ st.session.config.total_laps ∧
      ∀ i, populated (st.session.laps i) ↔ i < n)

/-- Folding `Workout_RecordLap` over a list of clock samples. -/
def recordLapSeq (ts : List Nat) (st : WorkoutSt) : WorkoutSt :=
  ts.foldl (fun s t => (Workout_RecordLap t s).2) st

/-- Abstract model of one ring-buffer push: append, dropping the oldest
element when the capacity is reached. -/
def pushDrop (l : List WorkoutEvent) (e : WorkoutEvent) : List WorkoutEvent :=
  if l.length < BUFFER_MAX_EVENTS then l ++ [e] else l.tail ++ [e]

/-- Abstraction relation: the ring buffer `b` stores exactly the events of
`l`, oldest first. -/
def BufAbs (b : EventBuffer) (l : List WorkoutEvent) : Prop :=
  b.count = l.length ∧ l.length ≤ BUFFER_MAX_EVENTS ∧
  b.tail < BUFFER_MAX_EVENTS ∧
  b.head = (b.tail + b.count) % BUFFER_MAX_EVENTS ∧
  ∀ i, (hi : i < l.length) →
    b.data ((b.tail + i) % BUFFER_MAX_EVENTS) = l.get ⟨i, hi⟩

/-- Workout state after `Start` at clock sample 0 from boot. -/
def stRun0 : WorkoutSt := (Workout_Start 0 Workout_Init).2

/-- Workout state after `Start` at 0 then `Pause` at 10 from boot. -/
def stPaused0 : WorkoutSt := (Workout_Pause 10 stRun0).2

/-- Workout state after `Start` at 0 then `Stop` from boot (an early stop:
no lap was ever recorded). -/
def stCompleted0 : WorkoutSt := (Workout_Stop stRun0).2

/-- Coordinator state in HR wait over a paused lifecycle, wait started at
clock sample 10. -/
def cPaused0 : CtrlSt :=
  { workout := stPaused0
    currentState := .CTRL_STATE_HR_MEASUREMENT
    hrWaitStartMs := 10
    hrWaitActive := true }

/-- Coordinator state running over the freshly started lifecycle. -/
def cRun0 : CtrlSt :=
  { workout := stRun0
    currentState := .CTRL_STATE_RUNNING
    hrWaitStartMs := 0
    hrWaitActive := false }

/-- First coordinator iteration of the claim-1 scenario: Start pressed at
t=0 from boot. -/
def claim1Run1 : CtrlSt × List WorkoutEvent :=
  ControlTask_RunStep 0 (some ⟨.BTN_START, 0⟩) none ControlTask_InitSt

/-- Second coordinator iteration of the claim-1 scenario: Lap pressed at
t=1000 while running. -/
def claim1Run2 : CtrlSt × List WorkoutEvent :=
  ControlTask_RunStep 1000 (some ⟨.BTN_LAP, 1000⟩) none claim1Run1.1

/-- Third coordinator iteration of the claim-1 scenario: no events, the
HR-confirmation timeout fires at t=6001. -/
def claim1Run3 : CtrlSt × List WorkoutEvent :=
  ControlTask_RunStep 6001 none none claim1Run2.1

/-- Concrete list of 17 pairwise-distinct workout events (timestamps
1..17) for the buffer-overflow scenario. -/
def events17 : List WorkoutEvent :=
  (List.range 17).map fun i => ⟨.EVENT_LAP_COMPLETE, i + 1, 0, zeroLap⟩

example : (Workout_Start 100 Workout_Init).2.session.state = .STATE_RUNNING := by decide

example :
    (Workout_RecordLap 1000 (Workout_Start 0 Workout_Init).2).1 =
      some ⟨1, 1000, 1000⟩ := by decide

example : (Workout_RecordLap 5 Workout_Init).2.session.state = .STATE_IDLE := by decide

example : (Buffer_Push zeroEvent Buffer_InitSt).2.count = 1 := by decide

example :
    (Buffer_PopN 1 (Buffer_Push zeroEvent Buffer_InitSt).2).1 = [zeroEvent] := by decide

example :
    Protocol_SerializeEvent Workout_Init 0
        ⟨.EVENT_LAP_COMPLETE, 9, 1, ⟨1, 4, 5⟩⟩ 128 =
      some "\x7b\"event\":\"lap\",\"lap\":1,\"lap_ms\":4,\"split_ms\":5,\"ts\":9\x7d" := by decide

theorem sub32_lt (a b : Nat) : sub32 a b < U32MOD := by
  unfold sub32 U32MOD
  omega

theorem sub32_mod_right (a b : Nat) : sub32 a (b % U32MOD) = sub32 a b := by
  unfold sub32 U32MOD
  omega

theorem sub32_eq_sub (a b : Nat) (h1 : b ≤ a) (h2 : a - b < U32MOD) : sub32 a b = a - b := by
  unfold sub32 U32MOD at *
  omega

theorem Pause_running_eq (now : Nat) (st : WorkoutSt)
    (h : st.session.state = .STATE_RUNNING) :
    Workout_Pause now st =
      (true,
        { st with
          session := { st.session with state := .STATE_PAUSED }
          pauseStartMs := now % U32MOD }) := by
  simp [Workout_Pause, h]

theorem RecordLap_notRunning_eq (now : Nat) (st : WorkoutSt)
    (h : st.session.state ≠ .STATE_RUNNING) :
    Workout_RecordLap now st = (none, st) := by
  simp [Workout_RecordLap, h]

theorem Start_paused_eq (now : Nat) (st : WorkoutSt)
    (h : st.session.state = .STATE_PAUSED) :
    Workout_Start now st =
      (true,
        { st with
          session := { st.session with state := .STATE_RUNNING }
          totalPausedMs := (st.totalPausedMs + sub32 now st.pauseStartMs) % U32MOD }) := by
  unfold Workout_Start
  rw [h]

theorem Start_idle_eq (now : Nat) (st : WorkoutSt)
    (h : st.session.state = .STATE_IDLE) :
    Workout_Start now st =
      (true,
        { st with
          session :=
            { st.session with
              state := .STATE_RUNNING
              current_lap := 1
              workout_start_ms := now % U32MOD
              lap_start_ms := now % U32MOD }
          totalPausedMs := 0 }) := by
  unfold Workout_Start
  rw [h]

/-- Claim C4: every lifecycle operation invoked in a state where it is
invalid (SetMode or CycleMode while not Idle, Start while Running or
Completed, RecordLap or Pause while not Running, Stop while Idle or
Completed) returns a failure result and leaves the workout session state,
including both pause-time accumulators, byte-for-byte unchanged. -/
theorem invalid_lifecycle_ops_leave_state_unchanged (st : WorkoutSt) :
    (∀ m, st.session.state ≠ .STATE_IDLE → Workout_SetMode m st = (false, st)) ∧
    (st.session.state ≠ .STATE_IDLE → Workout_CycleMode st = (false, st)) ∧
    (∀ now, st.session.state = .STATE_RUNNING ∨ st.session.state = .STATE_COMPLETED →
      Workout_Start now st = (false, st)) ∧
    (∀ now, st.session.state ≠ .STATE_RUNNING → Workout_RecordLap now st = (none, st)) ∧
    (∀ now, st.session.state ≠ .STATE_RUNNING → Workout_Pause now st = (false, st)) ∧
    (st.session.state = .STATE_IDLE ∨ st.session.state = .STATE_COMPLETED →
      Workout_Stop st = (false, st)) := by
  refine ⟨?_, ?_, ?_, ?_, ?_, ?_⟩
  · intro m h
    simp [Workout_SetMode, h]
  · intro h
    simp [Workout_CycleMode, h]
  · intro now h
    unfold Workout_Start
    rcases h with h | h <;> rw [h]
  · intro now h
    simp [Workout_RecordLap, h]
  · intro now h
    simp [Workout_Pause, h]
  · intro h
    simp [Workout_Stop, h]

/-- Witness for C4 at concrete invalid states. -/
theorem invalid_lifecycle_ops_leave_state_unchanged_w :
    Workout_SetMode .MODE_5x1000M stRun0 = (false, stRun0) ∧
    Workout_CycleMode stPaused0 = (false, stPaused0) ∧
    Workout_Start 7 stCompleted0 = (false, stCompleted0) ∧
    Workout_RecordLap 7 stPaused0 = (none, stPaused0) ∧
    Workout_Pause 7 stCompleted0 = (false, stCompleted0) ∧
    Workout_Stop Workout_Init = (false, Workout_Init) :=
  ⟨(invalid_lifecycle_ops_leave_state_unchanged stRun0).1 _ (by decide),
    (invalid_lifecycle_ops_leave_state_unchanged stPaused0).2.1 (by decide),
    (invalid_lifecycle_ops_leave_state_unchanged stCompleted0).2.2.1 7 (Or.inr (by decide)),
    (invalid_lifecycle_ops_leave_state_unchanged stPaused0).2.2.2.1 7 (by decide),
    (invalid_lifecycle_ops_leave_state_unchanged stCompleted0).2.2.2.2.1 7 (by decide),
    (invalid_lifecycle_ops_leave_state_unchanged Workout_Init).2.2.2.2.2 (Or.inl (by decide))⟩

/-- Claim C10, counterexample: the claim that `Protocol_SerializeEvent` is
a pure function of the event and buffer capacity alone, independent of the
global workout session, is false: serializing one and the same Start event
with capacity 128 under two different global sessions (boot default mode
`4x500m` versus mode `5x1000m`) yields two different wire records. -/
theorem serialize_depends_on_global_session :
    Protocol_SerializeEvent Workout_Init 0 ⟨.EVENT_WORKOUT_START, 0, 0, zeroLap⟩ 128 ≠
      Protocol_SerializeEvent (Workout_SetMode .MODE_5x1000M Workout_Init).2 0
        ⟨.EVENT_WORKOUT_START, 0, 0, zeroLap⟩ 128 := by
  decide

/-- Claim C10, amended: `Protocol_SerializeEvent` mutates no program state
and is deterministic, but its output depends on the global workout session
(and, for StatusUpdate, on the current time) for Start, Stop, Done and
StatusUpdate events; only for LapComplete events is the produced wire
record a pure function of the event argument and the buffer capacity,
identical across any two calls regardless of any other program state. -/
theorem serialize_lap_complete_pure (st1 st2 : WorkoutSt) (now1 now2 : Nat)
    (e : WorkoutEvent) (bufLen : Nat) (h : e.type = .EVENT_LAP_COMPLETE) :
    Protocol_SerializeEvent st1 now1 e bufLen = Protocol_SerializeEvent st2 now2 e bufLen := by
  unfold Protocol_SerializeEvent
  rw [h]

/-- Witness for the amended C10 at a concrete lap event and two unrelated
session states. -/
theorem serialize_lap_complete_pure_w :
    Protocol_SerializeEvent Workout_Init 3 ⟨.EVENT_LAP_COMPLETE, 9, 1, ⟨1, 4, 5⟩⟩ 128 =
      Protocol_SerializeEvent stPaused0 77 ⟨.EVENT_LAP_COMPLETE, 9, 1, ⟨1, 4, 5⟩⟩ 128 :=
  serialize_lap_complete_pure Workout_Init stPaused0 3 77 _ 128 (by decide)

/-- Claim C9: for every workout event, `Protocol_SerializeEvent` produces
exactly the wire record of spec §6 for that event's kind (field names,
field order and literal text bit-exact, all numeric fields rendered as
non-negative base-10 via `Nat.repr`), provided the buffer capacity is at
least 50 and the record fits; in particular a LapComplete event serializes
to the `"event":"lap"` record of its lap data, and a Done event's
`total_ms` field carries the event's `lap_data.split_time_ms` (the split
time of the final lap, which is what the coordinator stores there). -/
theorem serialize_matches_spec_wire_format (st : WorkoutSt) (now : Nat) (e : WorkoutEvent)
    (bufLen : Nat) (hb : 50 ≤ bufLen) :
    (e.type = .EVENT_LAP_COMPLETE →
      (specWireLap e.lap_data.lap_number e.lap_data.lap_time_ms e.lap_data.split_time_ms
        e.timestamp_ms).length < bufLen →
      Protocol_SerializeEvent st now e bufLen =
        some (specWireLap e.lap_data.lap_number e.lap_data.lap_time_ms
          e.lap_data.split_time_ms e.timestamp_ms)) ∧
    (e.type = .EVENT_WORKOUT_START →
      (specWireStart (Workout_ModeToString st.session.config.mode)
        st.session.config.total_laps e.timestamp_ms).length < bufLen →
      Protocol_SerializeEvent st now e bufLen =
        some (specWireStart (Workout_ModeToString st.session.config.mode)
          st.session.config.total_laps e.timestamp_ms)) ∧
    (e.type = .EVENT_WORKOUT_STOP →
      (specWireStop e.current_lap (sub32 e.timestamp_ms st.session.workout_start_ms)
        e.timestamp_ms).length < bufLen →
      Protocol_SerializeEvent st now e bufLen =
        some (specWireStop e.current_lap
          (sub32 e.timestamp_ms st.session.workout_start_ms) e.timestamp_ms)) ∧
    (e.type = .EVENT_WORKOUT_DONE →
      (specWireDone st.session.config.total_laps e.lap_data.split_time_ms
        e.timestamp_ms).length < bufLen →
      Protocol_SerializeEvent st now e bufLen =
        some (specWireDone st.session.config.total_laps e.lap_data.split_time_ms
          e.timestamp_ms)) ∧
    (e.type = .EVENT_STATUS_UPDATE →
      (specWireStatus (Workout_StateToString st.session.state) e.current_lap
        (Workout_GetElapsedMs now st)).length < bufLen →
      Protocol_SerializeEvent st now e bufLen =
        some (specWireStatus (Workout_StateToString st.session.state) e.current_lap
          (Workout_GetElapsedMs now st))) := by
  refine ⟨?_, ?_, ?_, ?_, ?_⟩ <;> intro h hfit <;>
    · unfold Protocol_SerializeEvent
      rw [h, if_neg (by omega)]
      exact if_neg (Nat.not_le.mpr hfit)

/-- Witness for C9: the LapComplete conjunct at a concrete event and
capacity 128. -/
theorem serialize_matches_spec_wire_format_w :
    Protocol_SerializeEvent Workout_Init 0 ⟨.EVENT_LAP_COMPLETE, 1234, 2, ⟨2, 1500, 2500⟩⟩ 128 =
      some (specWireLap 2 1500 2500 1234) :=
  (serialize_matches_spec_wire_format Workout_Init 0
      ⟨.EVENT_LAP_COMPLETE, 1234, 2, ⟨2, 1500, 2500⟩⟩ 128 (by decide)).1
    (by decide) (by decide)

/-- Claim C1 (code bug): a full HR-wait cycle driven from boot — Start at
t=0, Lap at t=1000 (coordinator enters HR_MEASUREMENT), then the
confirmation timeout at t=6001 — emits ZERO workout events, not the
exactly-one LapComplete/Done event the spec requires, and records no lap:
`exitHrWaitState` invokes `Workout_RecordLap` while the lifecycle is still
PAUSED (it was paused by `enterHrWaitState` and is only resumed after the
recording attempt), so the recording always fails, no event is ever built,
and the coordinator silently returns to RUNNING with `current_lap` still 1
and the lap slot unpopulated. -/
theorem hr_wait_exit_emits_zero_events :
    claim1Run2.1.currentState = .CTRL_STATE_HR_MEASUREMENT ∧
    claim1Run2.1.hrWaitActive = true ∧
    claim1Run2.1.workout.session.state = .STATE_PAUSED ∧
    claim1Run3.1.currentState = .CTRL_STATE_RUNNING ∧
    claim1Run3.1.hrWaitActive = false ∧
    claim1Run1.2 = [] ∧ claim1Run2.2 = [] ∧ claim1Run3.2 = [] ∧
    claim1Run3.1.workout.session.state = .STATE_RUNNING ∧
    claim1Run3.1.workout.session.current_lap = 1 ∧
    (claim1Run3.1.workout.session.laps 0).lap_number = 0 := by
  decide

theorem exitHrWait_paused (now : Nat) (cf : Bool) (c : CtrlSt)
    (hw : c.workout.session.state = .STATE_PAUSED) :
    exitHrWaitState now cf c =
      ({ c with
          hrWaitActive := false
          workout := (Workout_Start now c.workout).2
          currentState := .CTRL_STATE_RUNNING }, []) := by
  simp only [exitHrWaitState]
  rw [RecordLap_notRunning_eq now c.workout (by rw [hw]; decide)]
  simp [Workout_GetState, hw]

theorem enterHrWait_running (now : Nat) (c : CtrlSt)
    (h : c.workout.session.state = .STATE_RUNNING) :
    enterHrWaitState now c =
      { c with
        workout :=
          { c.workout with
            session := { c.workout.session with state := .STATE_PAUSED }
            pauseStartMs := now % U32MOD }
        hrWaitStartMs := now % U32MOD
        hrWaitActive := true
        currentState := .CTRL_STATE_HR_MEASUREMENT } := by
  simp only [enterHrWaitState]
  rw [Pause_running_eq now c.workout h]

/-- Claim C2: whenever the coordinator sits in HR wait with the wait
active over a paused lifecycle and no confirmation is delivered, then as
soon as the elapsed time since `wait_start_time` exceeds
`HR_CONFIRM_TIMEOUT_MS` the very next coordinator loop iteration leaves
HR wait (the wait is deactivated, the coordinator state becomes RUNNING)
and the paused lifecycle is resumed via `Workout_Start`. -/
theorem hr_wait_timeout_exits_and_resumes (c : CtrlSt) (now : Nat) (ble : Option BleCtrlEvent)
    (hc : c.currentState = .CTRL_STATE_HR_MEASUREMENT)
    (ha : c.hrWaitActive = true)
    (hw : c.workout.session.state = .STATE_PAUSED)
    (hble : ∀ b, ble = some b → b.type ≠ .BLE_CTRL_EVT_HR_DONE)
    (ht : sub32 now c.hrWaitStartMs > HR_CONFIRM_TIMEOUT_MS) :
    (ControlTask_RunStep now none ble c).1.currentState = .CTRL_STATE_RUNNING ∧
    (ControlTask_RunStep now none ble c).1.hrWaitActive = false ∧
    (ControlTask_RunStep now none ble c).1.workout.session.state = .STATE_RUNNING := by
  obtain ⟨⟨⟨cfg, stt, cur, ws, ls, lp⟩, ps, tp⟩, cs, hsms, hact⟩ := c
  dsimp only at hc ha hw ht
  subst hc
  subst ha
  subst hw
  cases ble with
  | none =>
    simp [ControlTask_RunStep, handleBleCtrlEvent, exitHrWaitState, Workout_RecordLap,
      Workout_GetState, Workout_Start, ht]
  | some b =>
    have hb := hble b rfl
    simp [ControlTask_RunStep, handleBleCtrlEvent, exitHrWaitState, Workout_RecordLap,
      Workout_GetState, Workout_Start, ht, hb]

/-- Witness for C2: a coordinator in HR wait since t=10 over a paused
lifecycle, checked at t=5011 (elapsed 5001 > 5000). -/
theorem hr_wait_timeout_exits_and_resumes_w :
    (ControlTask_RunStep 5011 none none cPaused0).1.currentState = .CTRL_STATE_RUNNING ∧
    (ControlTask_RunStep 5011 none none cPaused0).1.hrWaitActive = false ∧
    (ControlTask_RunStep 5011 none none cPaused0).1.workout.session.state = .STATE_RUNNING :=
  hr_wait_timeout_exits_and_resumes cPaused0 5011 none (by decide) (by decide) (by decide)
    (fun b hb => by cases hb) (by decide)

/-- Claim C3: entering HR wait at `t1` from a running lifecycle (which
pauses it) and exiting at `t2` in the single coordinator step that
performs the lap-recording attempt and the resume together credits the
paused interval `t2 - t1` to the cumulative paused-time accumulator
exactly once, so the resumed `ElapsedMs` equals real elapsed time minus
prior pauses minus this one interval, counted once, never twice. -/
theorem hr_wait_pause_interval_counted_once (c : CtrlSt) (t0 t1 t2 : Nat)
    (hrun : c.workout.session.state = .STATE_RUNNING)
    (hstart : c.workout.session.workout_start_ms = t0 % U32MOD)
    (h12 : t1 ≤ t2)
    (hreal : t0 + c.workout.totalPausedMs + (t2 - t1) ≤ t2)
    (hspan : t2 - t0 < U32MOD) :
    (exitHrWaitState t2 false (enterHrWaitState t1 c)).1.workout.totalPausedMs =
      c.workout.totalPausedMs + (t2 - t1) ∧
    (exitHrWaitState t2 false (enterHrWaitState t1 c)).1.workout.session.state =
      .STATE_RUNNING ∧
    Workout_GetElapsedMs t2 (exitHrWaitState t2 false (enterHrWaitState t1 c)).1.workout =
      t2 - t0 - c.workout.totalPausedMs - (t2 - t1) := by
  obtain ⟨⟨⟨cfg, stt, cur, ws, ls, lp⟩, ps, tp⟩, cs, hsms, hact⟩ := c
  dsimp only at hrun hstart hreal ⊢
  subst hrun
  subst hstart
  have e1 : sub32 t2 (t1 % U32MOD) = t2 - t1 := by
    rw [sub32_mod_right]
    exact sub32_eq_sub _ _ h12 (by omega)
  have e3 : sub32 t2 (t0 % U32MOD) = t2 - t0 := by
    rw [sub32_mod_right]
    exact sub32_eq_sub _ _ (by omega) hspan
  have e2 : (tp + (t2 - t1)) % U32MOD = tp + (t2 - t1) := Nat.mod_eq_of_lt (by omega)
  have e4 : sub32 (t2 - t0) (tp + (t2 - t1)) = t2 - t0 - (tp + (t2 - t1)) :=
    sub32_eq_sub _ _ (by omega) (by omega)
  simp [enterHrWaitState, exitHrWaitState, Workout_Pause, Workout_RecordLap,
    Workout_GetState, Workout_Start, Workout_GetElapsedMs, e1, e2, e3, e4]
  omega

/-- Witness for C3: boot, `Start` at 0, HR wait entered at 1000 and timed
out at 6001; the single paused interval of 5001 ms is credited once and
`ElapsedMs` is 1000. -/
theorem hr_wait_pause_interval_counted_once_w :
    (exitHrWaitState 6001 false (enterHrWaitState 1000 cRun0)).1.workout.totalPausedMs =
      stRun0.totalPausedMs + (6001 - 1000) ∧
    (exitHrWaitState 6001 false (enterHrWaitState 1000 cRun0)).1.workout.session.state =
      .STATE_RUNNING ∧
    Workout_GetElapsedMs 6001
        (exitHrWaitState 6001 false (enterHrWaitState 1000 cRun0)).1.workout =
      6001 - 0 - stRun0.totalPausedMs - (6001 - 1000) :=
  hr_wait_pause_interval_counted_once cRun0 0 1000 6001 (by decide) (by decide)
    (by decide) (by decide) (by decide)

theorem sub32_pause_frozen (s q r t1 t2 : Nat) :
    sub32 (sub32 (sub32 t1 s) q) (sub32 t1 r) =
      sub32 (sub32 (sub32 t2 s) q) (sub32 t2 r) := by
  unfold sub32 U32MOD
  omega

/-- Claim C6: `ElapsedMs` returns 0 whenever the session is Idle; while
Running it equals real elapsed time minus accumulated pauses and is
monotonically non-decreasing across any two query times; while Paused it
is frozen (independent of the query time, unconditionally, because the
modular subtraction cancels the clock term).  The Running case is stated
against an arbitrary true start time `t0`, of which the session stores
only `t0 % 2^32`, so it covers queries across the `0xFFFFFFFF` clock
wraparound. -/
theorem elapsed_ms_idle_monotone_frozen :
    (∀ (st : WorkoutSt) (now : Nat), st.session.state = .STATE_IDLE →
      Workout_GetElapsedMs now st = 0) ∧
    (∀ (st : WorkoutSt) (t0 p t1 t2 : Nat), st.session.state = .STATE_RUNNING →
      st.session.workout_start_ms = t0 % U32MOD → st.totalPausedMs = p →
      t0 + p ≤ t1 → t1 ≤ t2 → t2 - t0 < U32MOD →
      Workout_GetElapsedMs t1 st = t1 - t0 - p ∧
      Workout_GetElapsedMs t1 st ≤ Workout_GetElapsedMs t2 st) ∧
    (∀ (st : WorkoutSt) (t1 t2 : Nat), st.session.state = .STATE_PAUSED →
      Workout_GetElapsedMs t1 st = Workout_GetElapsedMs t2 st) := by
  refine ⟨?_, ?_, ?_⟩
  · intro st now h
    simp [Workout_GetElapsedMs, h]
  · intro st t0 p t1 t2 hrun hstart hp h1 h12 hspan
    have hval : ∀ t, t0 + p ≤ t → t - t0 < U32MOD →
        Workout_GetElapsedMs t st = t - t0 - p := by
      intro t ht htw
      simp only [Workout_GetElapsedMs, hrun]
      rw [if_neg (by decide), if_neg (by decide), hstart, hp, sub32_mod_right,
        sub32_eq_sub t t0 (by omega) htw, sub32_eq_sub _ _ (by omega) (by omega)]
    have hv1 := hval t1 h1 (by omega)
    have hv2 := hval t2 (by omega) hspan
    refine ⟨hv1, ?_⟩
    rw [hv1, hv2]
    omega
  · intro st t1 t2 h
    simp [Workout_GetElapsedMs, h]
    exact sub32_pause_frozen _ _ _ t1 t2

/-- Witness for C6: the Idle case at boot, the Running case on the session
started at 0 queried at 10 and 20, and the Paused case on the session
paused at 10 queried at 40 and 50. -/
theorem elapsed_ms_idle_monotone_frozen_w :
    Workout_GetElapsedMs 7 Workout_Init = 0 ∧
    (Workout_GetElapsedMs 10 stRun0 = 10 - 0 - 0 ∧
      Workout_GetElapsedMs 10 stRun0 ≤ Workout_GetElapsedMs 20 stRun0) ∧
    Workout_GetElapsedMs 40 stPaused0 = Workout_GetElapsedMs 50 stPaused0 :=
  ⟨elapsed_ms_idle_monotone_frozen.1 Workout_Init 7 (by decide),
    elapsed_ms_idle_monotone_frozen.2.1 stRun0 0 0 10 20 (by decide) (by decide) (by decide)
      (by decide) (by decide) (by decide),
    elapsed_ms_idle_monotone_frozen.2.2 stPaused0 40 50 (by decide)⟩

theorem sub32_zero_right (a : Nat) : sub32 a 0 = a % U32MOD := by
  unfold sub32 U32MOD
  omega

theorem recordLapSeq_nil (st : WorkoutSt) : recordLapSeq [] st = st := rfl

theorem recordLapSeq_cons (t : Nat) (ts : List Nat) (st : WorkoutSt) :
    recordLapSeq (t :: ts) st = recordLapSeq ts (Workout_RecordLap t st).2 := rfl

theorem RecordLap_mid_eq (now : Nat) (cfg : WorkoutConfig) (cur ws ls : Nat)
    (lp : Nat → LapRecord) (ps tp : Nat) (hlt : cur < cfg.total_laps) :
    Workout_RecordLap now ⟨⟨cfg, .STATE_RUNNING, cur, ws, ls, lp⟩, ps, tp⟩ =
      (some ⟨cur, sub32 now ls, sub32 (sub32 now ws) tp⟩,
        ⟨⟨cfg, .STATE_RUNNING, cur + 1, ws, now % U32MOD,
          Function.update lp (cur - 1) ⟨cur, sub32 now ls, sub32 (sub32 now ws) tp⟩⟩,
          ps, tp⟩) := by
  simp [Workout_RecordLap, Nat.not_le.mpr hlt]

theorem RecordLap_final_eq (now : Nat) (cfg : WorkoutConfig) (cur ws ls : Nat)
    (lp : Nat → LapRecord) (ps tp : Nat) (hge : cfg.total_laps ≤ cur) :
    Workout_RecordLap now ⟨⟨cfg, .STATE_RUNNING, cur, ws, ls, lp⟩, ps, tp⟩ =
      (some ⟨cur, sub32 now ls, sub32 (sub32 now ws) tp⟩,
        ⟨⟨cfg, .STATE_COMPLETED, cur, ws, ls,
          Function.update lp (cur - 1) ⟨cur, sub32 now ls, sub32 (sub32 now ws) tp⟩⟩,
          ps, tp⟩) := by
  simp [Workout_RecordLap, hge]

theorem recordLapSeq_run : ∀ (ts : List Nat) (st : WorkoutSt) (t0 : Nat),
    st.session.state = .STATE_RUNNING →
    st.totalPausedMs = 0 →
    st.session.workout_start_ms = t0 % U32MOD →
    1 ≤ st.session.current_lap →
    st.session.current_lap ≤ st.session.config.total_laps →
    st.session.current_lap + ts.length = st.session.config.total_laps + 1 →
    (∀ t ∈ ts, t0 ≤ t ∧ t - t0 < U32MOD) →
    List.Pairwise (· ≤ ·) ts →
    (recordLapSeq ts st).session.state = .STATE_COMPLETED ∧
    (∀ j, j < st.session.current_lap - 1 →
      (recordLapSeq ts st).session.laps j = st.session.laps j) ∧
    (∀ i, (hi : i < ts.length) →
      ((recordLapSeq ts st).session.laps (st.session.current_lap - 1 + i)).split_time_ms =
        ts.get ⟨i, hi⟩ - t0) := by
  intro ts
  induction ts with
  | nil =>
    intro st t0 _ _ _ _ hcurT hlen _ _
    simp only [List.length_nil] at hlen
    omega
  | cons t rest ih =>
    intro st t0 hrun hp hstart hcur1 hcurT hlen hmem hsorted
    obtain ⟨⟨cfg, stt, cur, ws, ls, lp⟩, ps, tp⟩ := st
    dsimp only at hrun hp hstart hcur1 hcurT hlen ⊢
    subst hrun
    subst hp
    subst hstart
    simp only [List.length_cons] at hlen
    have hmemt := hmem t (List.mem_cons_self t rest)
    have hsplitval : sub32 (sub32 t (t0 % U32MOD)) 0 = t - t0 := by
      rw [sub32_zero_right, Nat.mod_eq_of_lt (sub32_lt _ _), sub32_mod_right,
        sub32_eq_sub _ _ hmemt.1 hmemt.2]
    rcases Nat.lt_or_ge cur cfg.total_laps with hlt | hge
    · -- a middle lap: advance and recurse
      rw [recordLapSeq_cons, RecordLap_mid_eq t cfg cur (t0 % U32MOD) ls lp ps 0 hlt]
      obtain ⟨ihS, ihP, ihSp⟩ :=
        ih ⟨⟨cfg, .STATE_RUNNING, cur + 1, t0 % U32MOD, t % U32MOD,
              Function.update lp (cur - 1)
                ⟨cur, sub32 t ls, sub32 (sub32 t (t0 % U32MOD)) 0⟩⟩, ps, 0⟩ t0
          rfl rfl rfl (by show 1 ≤ cur + 1; omega)
          (by show cur + 1 ≤ cfg.total_laps; omega)
          (by show cur + 1 + rest.length = cfg.total_laps + 1; omega)
          (fun x hx => hmem x (List.mem_cons_of_mem _ hx))
          (List.pairwise_cons.mp hsorted).2
      dsimp only at ihP ihSp
      refine ⟨ihS, ?_, ?_⟩
      · intro j hj
        exact (ihP j (by omega)).trans (Function.update_noteq (by omega) _ _)
      · intro i hi
        cases i with
        | zero =>
          have h0 := ihP (cur - 1) (by omega)
          show ((recordLapSeq rest _).session.laps (cur - 1)).split_time_ms = t - t0
          rw [h0, Function.update_same]
          exact hsplitval
        | succ i' =>
          have h2 := ihSp i' (by simp only [List.length_cons] at hi; omega)
          have hidx : cur - 1 + (i' + 1) = cur + 1 - 1 + i' := by omega
          rw [hidx]
          exact h2
    · -- the final lap: the workout completes and the list must end here
      have hrest : rest = [] := by
        apply List.eq_nil_of_length_eq_zero
        omega
      subst hrest
      rw [recordLapSeq_cons, RecordLap_final_eq t cfg cur (t0 % U32MOD) ls lp ps 0 hge,
        recordLapSeq_nil]
      refine ⟨rfl, ?_, ?_⟩
      · intro j hj
        exact Function.update_noteq (by omega) _ _
      · intro i hi
        simp only [List.length_cons, List.length_nil] at hi
        have hi0 : i = 0 := by omega
        subst hi0
        show (Function.update lp (cur - 1)
            ⟨cur, sub32 t ls, sub32 (sub32 t (t0 % U32MOD)) 0⟩ (cur - 1)).split_time_ms =
          t - t0
        rw [Function.update_same]
        exact hsplitval

/-- Claim C5: starting from Idle, `Workout_Start` followed by exactly
`total_laps` calls of `Workout_RecordLap` at non-decreasing clock samples
drives the session to COMPLETED, the n-th recorded lap's `split_time_ms`
equals its sample minus the start time, and these splits are
non-decreasing in n. -/
theorem record_total_laps_completes_splits_monotone (st0 : WorkoutSt) (t0 : Nat)
    (ts : List Nat)
    (hidle : st0.session.state = .STATE_IDLE)
    (hlen : ts.length = st0.session.config.total_laps)
    (hL : 1 ≤ st0.session.config.total_laps)
    (hmem : ∀ t ∈ ts, t0 ≤ t ∧ t - t0 < U32MOD)
    (hsorted : List.Pairwise (· ≤ ·) ts) :
    (recordLapSeq ts (Workout_Start t0 st0).2).session.state = .STATE_COMPLETED ∧
    (∀ i, (hi : i < ts.length) →
      ((recordLapSeq ts (Workout_Start t0 st0).2).session.laps i).split_time_ms =
        ts.get ⟨i, hi⟩ - t0) ∧
    (∀ i j, (hi : i < ts.length) → (hj : j < ts.length) → i ≤ j →
      ((recordLapSeq ts (Workout_Start t0 st0).2).session.laps i).split_time_ms ≤
        ((recordLapSeq ts (Workout_Start t0 st0).2).session.laps j).split_time_ms) := by
  rw [Start_idle_eq t0 st0 hidle]
  obtain ⟨⟨cfg, stt, cur, ws, ls, lp⟩, ps, tp⟩ := st0
  dsimp only at hidle hlen hL ⊢
  obtain ⟨hS, _, hSp⟩ :=
    recordLapSeq_run ts ⟨⟨cfg, .STATE_RUNNING, 1, t0 % U32MOD, t0 % U32MOD, lp⟩, ps, 0⟩ t0
      rfl rfl rfl (Nat.le_refl 1) (by show (1 : Nat) ≤ cfg.total_laps; omega)
      (by show 1 + ts.length = cfg.total_laps + 1; omega) hmem hsorted
  have hSp0 : ∀ i, (hi : i < ts.length) →
      ((recordLapSeq ts ⟨⟨cfg, .STATE_RUNNING, 1, t0 % U32MOD, t0 % U32MOD, lp⟩,
          ps, 0⟩).session.laps i).split_time_ms = ts.get ⟨i, hi⟩ - t0 := by
    intro i hi
    have := hSp i hi
    simpa using this
  refine ⟨hS, hSp0, ?_⟩
  intro i j hi hj hij
  rw [hSp0 i hi, hSp0 j hj]
  rcases Nat.lt_or_ge i j with hlt | hge
  · have hget := List.pairwise_iff_get.mp hsorted ⟨i, hi⟩ ⟨j, hj⟩ hlt
    omega
  · have hij' : i = j := by omega
    subst hij'
    exact le_refl _

/-- Witness for C5: Scenario A — mode `4x500m`, Start at 0, laps recorded
at 1000, 2500, 4000, 5200. -/
theorem record_total_laps_completes_splits_monotone_w :
    (recordLapSeq [1000, 2500, 4000, 5200]
        (Workout_Start 0 Workout_Init).2).session.state = .STATE_COMPLETED ∧
    (∀ i, (hi : i < [1000, 2500, 4000, 5200].length) →
      ((recordLapSeq [1000, 2500, 4000, 5200]
          (Workout_Start 0 Workout_Init).2).session.laps i).split_time_ms =
        [1000, 2500, 4000, 5200].get ⟨i, hi⟩ - 0) ∧
    (∀ i j, (hi : i < [1000, 2500, 4000, 5200].length) →
      (hj : j < [1000, 2500, 4000, 5200].length) → i ≤ j →
      ((recordLapSeq [1000, 2500, 4000, 5200]
          (Workout_Start 0 Workout_Init).2).session.laps i).split_time_ms ≤
        ((recordLapSeq [1000, 2500, 4000, 5200]
            (Workout_Start 0 Workout_Init).2).session.laps j).split_time_ms) :=
  record_total_laps_completes_splits_monotone Workout_Init 0 [1000, 2500, 4000, 5200]
    (by decide) (by decide) (by decide) (by decide) (by decide)

theorem BufAbs_init : BufAbs Buffer_InitSt [] := by
  refine ⟨rfl, by simp [BUFFER_MAX_EVENTS], by simp [Buffer_InitSt, BUFFER_MAX_EVENTS], rfl, ?_⟩
  intro i hi
  exact absurd hi (Nat.not_lt_zero i)

theorem Buffer_Push_abs (e : WorkoutEvent) (b : EventBuffer) (l : List WorkoutEvent)
    (h : BufAbs b l) : BufAbs (Buffer_Push e b).2 (pushDrop l e) := by
  obtain ⟨hc, hlen, htail, hhead, hdata⟩ := h
  simp only [BUFFER_MAX_EVENTS] at hc hlen htail hhead hdata
  unfold BufAbs Buffer_Push pushDrop
  simp only [BUFFER_MAX_EVENTS]
  rcases Nat.lt_or_ge l.length 16 with hnf | hf
  · -- not full: append
    rw [if_neg (by omega), if_pos hnf]
    dsimp only
    refine ⟨by simp only [List.length_append, List.length_cons, List.length_nil]; omega,
      by simp only [List.length_append, List.length_cons, List.length_nil]; omega, htail,
      by simp only [List.length_append, List.length_cons, List.length_nil, hhead, hc]; omega,
      ?_⟩
    intro i hi
    simp only [List.length_append, List.length_cons, List.length_nil] at hi
    rcases Nat.lt_or_ge i l.length with hil | hil
    · rw [Function.update_noteq (by rw [hhead, hc]; omega) _ _]
      rw [hdata i hil]
      rw [List.get_eq_getElem, List.get_eq_getElem, List.getElem_append_left hil]
    · have hieq : i = l.length := by omega
      subst hieq
      have hidx : (b.tail + l.length) % 16 = b.head := by rw [hhead, hc]
      rw [hidx, Function.update_same, List.get_eq_getElem]
      exact (List.getElem_concat_length _ _ _ rfl _).symm
  · -- full: drop the oldest, overwrite at the head (= tail) slot
    have hl16 : l.length = 16 := by omega
    have hne : l ≠ [] := by
      intro hnil
      rw [hnil] at hl16
      simp at hl16
    obtain ⟨a, l', rfl⟩ := List.exists_cons_of_ne_nil hne
    simp only [List.length_cons] at hl16 hc
    have hht : b.head = b.tail := by rw [hhead, hc]; omega
    rw [if_pos (by omega), if_neg (by simp only [List.length_cons]; omega)]
    dsimp only
    simp only [List.tail_cons]
    refine ⟨by simp only [List.length_append, List.length_cons, List.length_nil]; omega,
      by simp only [List.length_append, List.length_cons, List.length_nil]; omega,
      by omega, ?_, ?_⟩
    · simp only [List.length_append, List.length_cons, List.length_nil, hht, hc]
      omega
    · intro i hi
      simp only [List.length_append, List.length_cons, List.length_nil] at hi
      rcases Nat.lt_or_ge i (l'.length) with hil | hil
      · rw [Function.update_noteq (by rw [hht]; omega) _ _]
        have hd := hdata (i + 1) (by simp only [List.length_cons]; omega)
        have hidx : ((b.tail + 1) % 16 + i) % 16 = (b.tail + (i + 1)) % 16 := by omega
        rw [hidx, hd]
        rw [List.get_eq_getElem, List.get_eq_getElem, List.getElem_cons_succ,
          List.getElem_append_left hil]
      · have hieq : i = l'.length := by omega
        subst hieq
        have hidx : ((b.tail + 1) % 16 + l'.length) % 16 = b.head := by rw [hht]; omega
        rw [hidx, Function.update_same, List.get_eq_getElem]
        exact (List.getElem_concat_length _ _ _ rfl _).symm

theorem Buffer_Pop_abs (b : EventBuffer) (x : WorkoutEvent) (l : List WorkoutEvent)
    (h : BufAbs b (x :: l)) :
    (Buffer_Pop b).1 = some x ∧ BufAbs (Buffer_Pop b).2 l := by
  obtain ⟨hc, hlen, htail, hhead, hdata⟩ := h
  simp only [BUFFER_MAX_EVENTS, List.length_cons] at hc hlen htail hhead hdata
  unfold BufAbs Buffer_Pop
  simp only [BUFFER_MAX_EVENTS]
  rw [if_neg (by omega)]
  dsimp only
  constructor
  · have h0 := hdata 0 (by omega)
    simp only [Nat.add_zero, Nat.mod_eq_of_lt htail] at h0
    simpa using h0
  · refine ⟨by simp [hc], by omega, by omega, ?_, ?_⟩
    · rw [hhead]
      omega
    · intro i hi
      have hd := hdata (i + 1) (by omega)
      have hidx : ((b.tail + 1) % 16 + i) % 16 = (b.tail + (i + 1)) % 16 := by omega
      rw [hidx, hd]
      rw [List.get_eq_getElem, List.get_eq_getElem, List.getElem_cons_succ]

theorem Buffer_PopN_abs : ∀ (l : List WorkoutEvent) (b : EventBuffer), BufAbs b l →
    (Buffer_PopN l.length b).1 = l := by
  intro l
  induction l with
  | nil => intro b _; rfl
  | cons x l' ih =>
    intro b h
    obtain ⟨hfst, habs⟩ := Buffer_Pop_abs b x l' h
    have hp : Buffer_Pop b = (some x, (Buffer_Pop b).2) := Prod.ext hfst rfl
    show (Buffer_PopN (l'.length + 1) b).1 = x :: l'
    rw [Buffer_PopN, hp]
    simp only []
    rw [ih _ habs]

theorem Buffer_PushList_abs : ∀ (evs : List WorkoutEvent) (b : EventBuffer)
    (l : List WorkoutEvent), BufAbs b l →
    BufAbs (Buffer_PushList evs b) (evs.foldl pushDrop l) := by
  intro evs
  induction evs with
  | nil => intro b l h; exact h
  | cons e rest ih => intro b l h; exact ih _ _ (Buffer_Push_abs e b l h)

theorem foldl_pushDrop_drop : ∀ (evs l : List WorkoutEvent), l.length ≤ 16 →
    List.foldl pushDrop l evs = (l ++ evs).drop (l.length + evs.length - 16) := by
  intro evs
  induction evs with
  | nil =>
    intro l h
    simp only [List.foldl_nil, List.append_nil, List.length_nil, Nat.add_zero]
    rw [Nat.sub_eq_zero_of_le h, List.drop_zero]
  | cons e rest ih =>
    intro l h
    rw [List.foldl_cons]
    rcases Nat.lt_or_ge l.length 16 with hlt | hge
    · have hpd : pushDrop l e = l ++ [e] := by
        unfold pushDrop
        simp only [BUFFER_MAX_EVENTS]
        rw [if_pos hlt]
      rw [hpd, ih (l ++ [e])
        (by simp only [List.length_append, List.length_cons, List.length_nil]; omega)]
      have e1 : (l ++ [e]) ++ rest = l ++ e :: rest := by simp
      have e2 : (l ++ [e]).length + rest.length - 16 =
          l.length + (e :: rest).length - 16 := by
        simp only [List.length_append, List.length_cons, List.length_nil]
        omega
      rw [e1, e2]
    · have hl16 : l.length = 16 := by omega
      have hne : l ≠ [] := by
        intro hnil
        rw [hnil] at hl16
        simp at hl16
      obtain ⟨a, l', rfl⟩ := List.exists_cons_of_ne_nil hne
      simp only [List.length_cons] at hl16
      have hpd : pushDrop (a :: l') e = l' ++ [e] := by
        unfold pushDrop
        simp only [BUFFER_MAX_EVENTS]
        rw [if_neg (by simp only [List.length_cons]; omega), List.tail_cons]
      rw [hpd, ih (l' ++ [e])
        (by simp only [List.length_append, List.length_cons, List.length_nil]; omega)]
      have e1 : (l' ++ [e]) ++ rest = l' ++ e :: rest := by simp
      have e2 : (l' ++ [e]).length + rest.length - 16 = rest.length := by
        simp only [List.length_append, List.length_cons, List.length_nil]
        omega
      have e3 : (a :: l').length + (e :: rest).length - 16 = rest.length + 1 := by
        simp only [List.length_cons]
        omega
      rw [e1, e2, e3, List.cons_append, List.drop_succ_cons]

/-- Claim C7: pushing `16 + k` events (`k > 0`) into the capacity-16
offline buffer from its initial state leaves exactly the most recent 16
events stored, and popping 16 times returns them in their original push
order: the pop sequence equals `evs.drop k`, so the first `k` events are
unrecoverable. -/
theorem buffer_overflow_keeps_most_recent_16 (evs : List WorkoutEvent) (k : Nat)
    (hk : 0 < k) (hlen : evs.length = 16 + k) :
    Buffer_GetCount (Buffer_PushList evs Buffer_InitSt) = 16 ∧
    (Buffer_PopN 16 (Buffer_PushList evs Buffer_InitSt)).1 = evs.drop k := by
  have habs := Buffer_PushList_abs evs Buffer_InitSt [] BufAbs_init
  have hmodel := foldl_pushDrop_drop evs [] (by simp)
  simp only [List.length_nil, List.nil_append, Nat.zero_add] at hmodel
  have hk16 : evs.length - 16 = k := by omega
  rw [hmodel, hk16] at habs
  have hdroplen : (evs.drop k).length = 16 := by
    rw [List.length_drop]
    omega
  constructor
  · exact habs.1.trans hdroplen
  · have hpop := Buffer_PopN_abs (evs.drop k) _ habs
    rw [hdroplen] at hpop
    exact hpop

/-- Witness for C7: Scenario C — 17 concrete events pushed into the empty
16-slot buffer; the pop sequence is events 2..17 in order. -/
theorem buffer_overflow_keeps_most_recent_16_w :
    Buffer_GetCount (Buffer_PushList events17 Buffer_InitSt) = 16 ∧
    (Buffer_PopN 16 (Buffer_PushList events17 Buffer_InitSt)).1 = events17.drop 1 :=
  buffer_overflow_keeps_most_recent_16 events17 1 (by decide) (by decide)

theorem SessionInv_setModeConfig (m : WorkoutMode) (st : WorkoutSt)
    (hidle : st.session.state = .STATE_IDLE)
    (hlaps0 : ∀ i, ¬ populated (st.session.laps i)) :
    SessionInv (setModeConfig m st) := by
  refine ⟨?_, ?_, ?_, ?_, ?_, ?_⟩
  · cases m <;> simp [setModeConfig, MAX_LAPS]
  · cases m <;> simp [setModeConfig, MAX_LAPS]
  · cases m <;> simp [setModeConfig, hidle]
  · intro _ i
    exact hlaps0 i
  · intro hcon
    rcases hcon with hc | hc <;> rw [show (setModeConfig m st).session.state =
      st.session.state by cases m <;> simp [setModeConfig], hidle] at hc <;> cases hc
  · intro hcon
    rw [show (setModeConfig m st).session.state = st.session.state by
      cases m <;> simp [setModeConfig], hidle] at hcon
    cases hcon

theorem reach_inv (st : WorkoutSt) (h : Reach st) : SessionInv st := by
  induction h with
  | init =>
    exact SessionInv_setModeConfig _ _ rfl (fun i => by simp [populated, zeroLap])
  | setMode m st hR ih =>
    unfold Workout_SetMode
    by_cases h : st.session.state = .STATE_IDLE
    · rw [if_neg (not_not_intro h)]
      exact SessionInv_setModeConfig m st h (ih.2.2.2.1 h)
    · rw [if_pos h]
      exact ih
  | cycleMode st hR ih =>
    unfold Workout_CycleMode
    by_cases h : st.session.state = .STATE_IDLE
    · rw [if_neg (not_not_intro h)]
      exact SessionInv_setModeConfig _ st h (ih.2.2.2.1 h)
    · rw [if_pos h]
      exact ih
  | reset st hR ih =>
    exact SessionInv_setModeConfig _ _ rfl (fun i => by simp [populated, zeroLap])
  | start now st hR ih =>
    obtain ⟨hL1, hL8, hRest, hIdle, hRun, hComp⟩ := ih
    unfold Workout_Start
    cases hstt : st.session.state with
    | STATE_IDLE =>
      dsimp only
      unfold SessionInv
      dsimp only
      refine ⟨hL1, hL8, by simp, by simp, ?_, by simp⟩
      intro _
      refine ⟨le_refl 1, hL1, ?_⟩
      intro i
      exact ⟨fun hp => absurd hp (hIdle hstt i), fun hi => absurd hi (by omega)⟩
    | STATE_PAUSED =>
      dsimp only
      unfold SessionInv
      dsimp only
      have hP := hRun (Or.inr hstt)
      refine ⟨hL1, hL8, by simp, by simp, ?_, by simp⟩
      intro _
      exact hP
    | STATE_RUNNING =>
      dsimp only
      exact ⟨hL1, hL8, hRest, hIdle, hRun, hComp⟩
    | STATE_REST =>
      exact absurd hstt hRest
    | STATE_COMPLETED =>
      dsimp only
      exact ⟨hL1, hL8, hRest, hIdle, hRun, hComp⟩
  | recordLap now st hR ih =>
    obtain ⟨hL1, hL8, hRest, hIdle, hRun, hComp⟩ := ih
    unfold Workout_RecordLap
    by_cases h : st.session.state = .STATE_RUNNING
    · rw [if_neg (not_not_intro h)]
      obtain ⟨hc1, hcT, hlapsIff⟩ := hRun (Or.inl h)
      by_cases hge : st.session.current_lap ≥ st.session.config.total_laps
      · rw [if_pos hge]
        unfold SessionInv
        dsimp only
        refine ⟨hL1, hL8, by simp, by simp, by simp, ?_⟩
        intro _
        refine ⟨hc1, hcT, st.session.current_lap, by omega, le_refl _, hcT, ?_⟩
        intro i
        by_cases hi : i = st.session.current_lap - 1
        · subst hi
          rw [Function.update_same]
          simp only [populated]
          omega
        · rw [Function.update_noteq hi, hlapsIff i]
          omega
      · rw [if_neg hge]
        unfold SessionInv
        dsimp only
        refine ⟨hL1, hL8, by simp [h], by simp [h], ?_, by simp [h]⟩
        intro _
        refine ⟨by omega, by omega, ?_⟩
        intro i
        by_cases hi : i = st.session.current_lap - 1
        · subst hi
          rw [Function.update_same]
          simp only [populated]
          omega
        · rw [Function.update_noteq hi, hlapsIff i]
          omega
    · rw [if_pos h]
      exact ⟨hL1, hL8, hRest, hIdle, hRun, hComp⟩
  | pause now st hR ih =>
    obtain ⟨hL1, hL8, hRest, hIdle, hRun, hComp⟩ := ih
    unfold Workout_Pause
    by_cases h : st.session.state = .STATE_RUNNING
    · rw [if_neg (not_not_intro h)]
      unfold SessionInv
      dsimp only
      have hP := hRun (Or.inl h)
      refine ⟨hL1, hL8, by simp, by simp, ?_, by simp⟩
      intro _
      exact hP
    · rw [if_pos h]
      exact ⟨hL1, hL8, hRest, hIdle, hRun, hComp⟩
  | stop st hR ih =>
    obtain ⟨hL1, hL8, hRest, hIdle, hRun, hComp⟩ := ih
    unfold Workout_Stop
    by_cases h : st.session.state = .STATE_IDLE ∨ st.session.state = .STATE_COMPLETED
    · rw [if_pos h]
      exact ⟨hL1, hL8, hRest, hIdle, hRun, hComp⟩
    · rw [if_neg h]
      dsimp only
      have hRP : st.session.state = .STATE_RUNNING ∨ st.session.state = .STATE_PAUSED := by
        cases hstt : st.session.state with
        | STATE_IDLE => exact absurd (Or.inl hstt) h
        | STATE_RUNNING => exact Or.inl rfl
        | STATE_REST => exact absurd hstt hRest
        | STATE_PAUSED => exact Or.inr rfl
        | STATE_COMPLETED => exact absurd (Or.inr hstt) h
      obtain ⟨hc1, hcT, hlapsIff⟩ := hRun hRP
      unfold SessionInv
      dsimp only
      refine ⟨hL1, hL8, by simp, by simp, by simp, ?_⟩
      intro _
      exact ⟨hc1, hcT, st.session.current_lap - 1, le_refl _, by omega, by omega,
        fun i => hlapsIff i⟩

/-- Claim C8, counterexample: a reachable COMPLETED state in which
`laps[i]` is NOT populated for every `i < total_laps`: boot, `Start` at 0,
then `Stop` (an early stop before any lap is recorded) gives a COMPLETED
session with `total_laps = 4` whose slot 0 is unpopulated. -/
theorem completed_session_with_unpopulated_lap_slot :
    Reach stCompleted0 ∧
    stCompleted0.session.state = .STATE_COMPLETED ∧
    0 < stCompleted0.session.config.total_laps ∧
    ¬ populated (stCompleted0.session.laps 0) :=
  ⟨Reach.stop stRun0 (Reach.start 0 Workout_Init Reach.init), by decide, by decide, by decide⟩

/-- Claim C8, amended: in every session state reachable by lifecycle
operations from boot, `current_lap` is in `[1, total_laps]` while RUNNING
or PAUSED (and `total_laps ≤ MAX_LAPS`), so every write that
`Workout_RecordLap` performs at `laps[current_lap - 1]` is within the
MAX_LAPS-element array bounds; `laps[i]` is populated iff
`i < current_lap - 1` while RUNNING or PAUSED, and once COMPLETED the
populated slots form a prefix of some length `n` with
`current_lap - 1 ≤ n ≤ current_lap` and `n ≤ total_laps` (`n = total_laps`
when the session completed by recording its final lap; `n = current_lap - 1`
when it was stopped early). -/
theorem reachable_session_invariant (st : WorkoutSt) (h : Reach st) :
    SessionInv st ∧
    (st.session.state = .STATE_RUNNING → st.session.current_lap - 1 < MAX_LAPS) := by
  have hInv := reach_inv st h
  refine ⟨hInv, ?_⟩
  intro hrun
  obtain ⟨hL1, hL8, _, _, hRun, _⟩ := hInv
  obtain ⟨hc1, hcT, _⟩ := hRun (Or.inl hrun)
  unfold MAX_LAPS at *
  omega

/-- Witness for the amended C8 at the boot state. -/
theorem reachable_session_invariant_w :
    SessionInv Workout_Init ∧
    (Workout_Init.session.state = .STATE_RUNNING →
      Workout_Init.session.current_lap - 1 < MAX_LAPS) :=
  reachable_session_invariant Workout_Init Reach.init

end RunTracker
